import Mathlib

/-!
Shallow embedding of the natal-chart application
(`natal_backend.py`, `app.py`, `test_natal_chart.py`).

Python dictionaries, lists, strings, floats and booleans that flow through
the backend are modelled by the inductive type `Val` (insertion-ordered
association lists model `dict`).  The external astrology library
(kerykeion) is not part of the repository; a call to it is modelled by a
`LibResult` parameter: either a fully populated `AstrologicalSubject`
together with a `NatalAspects` object, or a raised exception carrying its
`str(e)` message.  Fallible Python operations (attribute lookup, dict
indexing, `int()` parsing) are modelled with `Option`/`Except`.
-/

set_option maxHeartbeats 1000000
set_option maxRecDepth 100000
set_option linter.unusedVariables false

/-- A Python value as used by this application: string, float (modelled as
a rational), bool, list, or insertion-ordered dictionary. -/
inductive Val where
  | str : String → Val
  | num : ℚ → Val
  | bool : Bool → Val
  | list : List Val → Val
  | dict : List (String × Val) → Val
deriving BEq

/-- Effectful map over a list in the `Option` monad (`none` aborts), the
combinator behind the loops whose bodies can raise. -/
def optMapM {α β : Type} (f : α → Option β) : List α → Option (List β)
  | [] => some []
  | x :: xs => do
    let y ← f x
    let ys ← optMapM f xs
    pure (y :: ys)

/-- `d.get(k)` on a dictionary value: `none` models both a missing key and
`.get` returning Python `None`. -/
def valGet : Val → String → Option Val
  | .dict es, k => es.lookup k
  | _, _ => none

/-- The keys of a dictionary value, in insertion order. -/
def valKeys : Val → List String
  | .dict es => es.map Prod.fst
  | _ => []

/-- A kerykeion planet object as consumed by the backend: the four
attributes the repository reads (`sign`, `position`, `house`,
`retrograde`). -/
structure Planet where
  sign : String
  position : ℚ
  house : String
  retrograde : Bool

/-- A kerykeion house-cusp object as consumed by the backend
(`sign` and `position` are the attributes the repository reads). -/
structure HouseCusp where
  sign : String
  position : ℚ

/-- A kerykeion `AstrologicalSubject`: the identity attributes echo the
constructor arguments (the library stores them; the test script prints
them back), and the astronomical attributes (planets, house cusps) are
whatever the library computed. -/
structure AstrologicalSubject where
  name : String
  year : ℤ
  month : ℤ
  day : ℤ
  hour : ℤ
  minute : ℤ
  lat : ℚ
  lng : ℚ
  tz_str : String
  sun : Planet
  moon : Planet
  mercury : Planet
  venus : Planet
  mars : Planet
  jupiter : Planet
  saturn : Planet
  uranus : Planet
  neptune : Planet
  pluto : Planet
  first_house : HouseCusp
  second_house : HouseCusp
  third_house : HouseCusp
  fourth_house : HouseCusp
  fifth_house : HouseCusp
  sixth_house : HouseCusp
  seventh_house : HouseCusp
  eighth_house : HouseCusp
  ninth_house : HouseCusp
  tenth_house : HouseCusp
  eleventh_house : HouseCusp
  twelfth_house : HouseCusp

/-- One entry of `NatalAspects.all_aspects` as consumed by the backend:
the keys `p1_name`, `p2_name`, `aspect`, `orbit` that the repository
reads. -/
structure AspectRec where
  p1_name : String
  p2_name : String
  aspect : String
  orbit : ℚ

/-- A kerykeion `NatalAspects` object; `none` models the absence of the
`all_aspects` attribute (the backend guards with `hasattr`). -/
structure NatalAspects where
  all_aspects : Option (List AspectRec)

/-- The outcome of the library interaction inside the `try` block of
`generate_chart`: either the constructed subject and aspects, or a raised
exception with its `str(e)` message. -/
inductive LibResult where
  | ok : AstrologicalSubject → NatalAspects → LibResult
  | raise : String → LibResult

/-! ### String helpers (kernel-computable models of the Python
operations the repository uses) -/

/-- Python `f"{n:02d}"` for the two-digit zero-padded fields used by the
backend (a sign already fills the width for negative one-digit values). -/
def pad2 (n : ℤ) : String :=
  if 0 ≤ n ∧ n < 10 then "0" ++ toString n else toString n

/-- Fractional decimal digits of the fraction `r / d` (with `r < d`), up
to `fuel` places, dropping once the remainder is zero (models the finite
decimal literals that reach the app through its number fields). -/
def fracDigits : ℕ → ℕ → ℕ → String
  | 0, _, _ => ""
  | fuel + 1, r, d =>
    if r = 0 then ""
    else
      let r10 := r * 10
      toString (r10 / d) ++ fracDigits fuel (r10 % d) d

/-- Python `str(x)` for a float holding a finite decimal value: sign,
integer part, decimal point, fractional digits (`".0"` when the value is
integral). -/
def decimalRepr (q : ℚ) : String :=
  let sgn := if q < 0 then "-" else ""
  let n : ℕ := q.num.natAbs
  let d : ℕ := q.den
  let ds := fracDigits 17 (n % d) d
  sgn ++ toString (n / d) ++ "." ++ (if ds = "" then "0" else ds)

/-- Python `str(v)` as used inside the app's f-strings (the app only
interpolates strings, numbers and booleans; containers never reach an
f-string). -/
def pyStr : Val → String
  | .str s => s
  | .num q => decimalRepr q
  | .bool b => if b then "True" else "False"
  | .list _ => "[...]"
  | .dict _ => "\x7b...\x7d"

/-- `str.replace(pat, rep)` on character lists, left to right,
non-overlapping; `fuel` bounds the recursion (`fuel = length + 1`
suffices for a non-empty pattern). -/
def replaceListAux (pat rep : List Char) : ℕ → List Char → List Char
  | 0, s => s
  | fuel + 1, s =>
    match s with
    | [] => []
    | c :: rest =>
      if pat.isPrefixOf s then rep ++ replaceListAux pat rep fuel (s.drop pat.length)
      else c :: replaceListAux pat rep fuel rest

/-- Python `s.replace(pat, rep)` (used by the backend to build the SVG
file name). -/
def strReplace (s pat rep : String) : String :=
  String.mk (replaceListAux pat.toList rep.toList (s.toList.length + 1) s.toList)

/-- Digit value of a decimal digit character. -/
def digitVal (c : Char) : Option ℕ :=
  if c.isDigit then some (c.toNat - 48) else none

/-- Decimal reading of a non-empty digit string. -/
def natOfDigits (l : List Char) : Option ℕ :=
  match l with
  | [] => none
  | _ => l.foldl (fun acc c => do pure ((← acc) * 10 + (← digitVal c))) (some 0)

/-- Python `int(s)` on the date components: optional leading minus sign
followed by decimal digits; `none` models the raised `ValueError`. -/
def strToInt (s : String) : Option ℤ :=
  match s.toList with
  | '-' :: rest => (natOfDigits rest).map fun n => -(n : ℤ)
  | l => (natOfDigits l).map fun n => (n : ℤ)

/-- Python `s.split('-')` on character lists. -/
def splitDash : List Char → List (List Char)
  | [] => [[]]
  | c :: rest =>
    let r := splitDash rest
    if c = '-' then [] :: r
    else
      match r with
      | h :: t => (c :: h) :: t
      | [] => [[c]]

/-- The date parsing in `generate_natal_chart`:
`year, month, day = map(int, birth_date.split('-'))`; an `Except.error`
carries the `str(e)` of the `ValueError` it models. -/
def parseDate (s : String) : Except String (ℤ × ℤ × ℤ) :=
  let parts := (splitDash s.toList).map String.mk
  match optMapM strToInt parts with
  | none => .error "invalid literal for int() with base 10"
  | some [y, m, d] => .ok (y, m, d)
  | some _ => .error "not enough values to unpack"

/-- Python `round(x, 2)` on the positions and orbs the backend rounds. -/
def round2 (q : ℚ) : ℚ :=
  ((round (q * 100) : ℤ) : ℚ) / 100

/-- Minimal JSON string escaping (quote and backslash), modelling what
`json.dumps` does to the strings this app produces. -/
def jsonEscapeChar (c : Char) : String :=
  if c = '\\' then "\\\\" else if c = '"' then "\\\"" else String.singleton c

/-- Escape a whole string for JSON output. -/
def jsonEscape (s : String) : String :=
  String.join (s.toList.map jsonEscapeChar)

mutual
/-- `json.dumps(v)`: serialisation of a value to a JSON string
(whitespace-compressed model of the `indent=2` rendering). -/
def jsonDumps : Val → String
  | .str s => "\"" ++ jsonEscape s ++ "\""
  | .num q => decimalRepr q
  | .bool b => if b then "true" else "false"
  | .list vs => "[" ++ jsonDumpsList vs ++ "]"
  | .dict es => "\x7b" ++ jsonDumpsEntries es ++ "\x7d"

/-- Comma-separated serialisation of a JSON array body. -/
def jsonDumpsList : List Val → String
  | [] => ""
  | [v] => jsonDumps v
  | v :: vs => jsonDumps v ++ ", " ++ jsonDumpsList vs

/-- Comma-separated serialisation of a JSON object body. -/
def jsonDumpsEntries : List (String × Val) → String
  | [] => ""
  | [(k, v)] => "\"" ++ jsonEscape k ++ "\": " ++ jsonDumps v
  | (k, v) :: es => "\"" ++ jsonEscape k ++ "\": " ++ jsonDumps v ++ ", " ++ jsonDumpsEntries es
end

/-! ### `natal_backend.py`: `NatalChartGenerator` -/

/-- The error dictionary returned by the `except` branch of
`generate_chart`. -/
def errDict (e : String) : Val :=
  Val.dict [("success", .bool false), ("error", .str e),
    ("message", .str "Failed to generate natal chart. Please check your input data.")]

/-- `str(self.output_dir / f"{name.replace(' ', '_')}_chart.svg")`. -/
def svgPath (name : String) : String :=
  "output/" ++ strReplace name " " "_" ++ "_chart.svg"

/-- The `location` field of `birth_data`:
`city or f"{latitude}, {longitude}"` (a missing or empty city is falsy). -/
def locationStr (city : Option String) (latitude longitude : ℚ) : String :=
  match city with
  | some c => if c = "" then decimalRepr latitude ++ ", " ++ decimalRepr longitude else c
  | none => decimalRepr latitude ++ ", " ++ decimalRepr longitude

/-- The per-planet dictionary built inside the `_get_placements` loop. -/
def placementVal (p : Planet) : Val :=
  Val.dict [("sign", .str p.sign), ("position", .num (round2 p.position)),
    ("house", .str p.house), ("retrograde", .bool p.retrograde)]

/-- `NatalChartGenerator._get_placements`: the ten planets in source
order, each mapped to its placement dictionary. -/
def get_placements (s : AstrologicalSubject) : Val :=
  Val.dict [("Sun", placementVal s.sun), ("Moon", placementVal s.moon),
    ("Mercury", placementVal s.mercury), ("Venus", placementVal s.venus),
    ("Mars", placementVal s.mars), ("Jupiter", placementVal s.jupiter),
    ("Saturn", placementVal s.saturn), ("Uranus", placementVal s.uranus),
    ("Neptune", placementVal s.neptune), ("Pluto", placementVal s.pluto)]

/-- The list literal `['fourth', ..., 'twelfth']` indexed by `i - 4` in
`_get_houses`. -/
def laterOrdinals : List String :=
  ["fourth", "fifth", "sixth", "seventh", "eighth", "ninth", "tenth", "eleventh", "twelfth"]

/-- The ordinal word computed by the conditional expression inside
`_get_houses` for house number `i`. -/
def ordinalWord (i : ℕ) : String :=
  if i = 1 then "first"
  else if i = 2 then "second"
  else if i = 3 then "third"
  else laterOrdinals.getD (i - 4) ""

/-- Python `getattr(subject, a)` restricted to the twelve house-cusp
attributes; `none` models the raised `AttributeError`. -/
def getHouseAttr (s : AstrologicalSubject) (a : String) : Option HouseCusp :=
  if a = "first_house" then some s.first_house
  else if a = "second_house" then some s.second_house
  else if a = "third_house" then some s.third_house
  else if a = "fourth_house" then some s.fourth_house
  else if a = "fifth_house" then some s.fifth_house
  else if a = "sixth_house" then some s.sixth_house
  else if a = "seventh_house" then some s.seventh_house
  else if a = "eighth_house" then some s.eighth_house
  else if a = "ninth_house" then some s.ninth_house
  else if a = "tenth_house" then some s.tenth_house
  else if a = "eleventh_house" then some s.eleventh_house
  else if a = "twelfth_house" then some s.twelfth_house
  else none

/-- `NatalChartGenerator._get_houses`: for `i` in `1..12`, look up the
attribute named by the ordinal word plus `"_house"` and record the cusp
sign under the key `"House i"`; `none` models an `AttributeError` escaping
the loop. -/
def get_houses (s : AstrologicalSubject) : Option (List (String × Val)) :=
  optMapM
    (fun i => do
      let h ← getHouseAttr s (ordinalWord i ++ "_house")
      pure ("House " ++ toString i, Val.str h.sign))
    (List.range' 1 12)

/-- The per-aspect dictionary built inside the `_get_aspects` loop. -/
def aspectVal (a : AspectRec) : Val :=
  Val.dict [("planets", .str (a.p1_name ++ " - " ++ a.p2_name)),
    ("type", .str a.aspect), ("orb", .num (round2 a.orbit))]

/-- `NatalChartGenerator._get_aspects`: the mapped list when
`all_aspects` exists (empty otherwise), sliced to the first ten. -/
def get_aspects (a : NatalAspects) : List Val :=
  (match a.all_aspects with
   | some l => l.map aspectVal
   | none => []).take 10

/-- The static sun-sign table of `_generate_interpretation`. -/
def sun_interpretations : List (String × String) :=
  [("Aries", "Bold, energetic, and pioneering. You lead with courage and initiative."),
   ("Taurus", "Grounded, reliable, and sensual. You value stability and comfort."),
   ("Gemini", "Curious, adaptable, and communicative. You thrive on variety and mental stimulation."),
   ("Cancer", "Nurturing, intuitive, and protective. You lead with emotion and care deeply."),
   ("Leo", "Confident, creative, and charismatic. You shine brightest when expressing yourself."),
   ("Virgo", "Analytical, practical, and helpful. You excel at refining and improving."),
   ("Libra", "Diplomatic, harmonious, and fair. You seek balance and beauty in all things."),
   ("Scorpio", "Intense, passionate, and transformative. You dive deep into life's mysteries."),
   ("Sagittarius", "Adventurous, optimistic, and philosophical. You seek meaning and expansion."),
   ("Capricorn", "Ambitious, disciplined, and responsible. You build lasting structures."),
   ("Aquarius", "Innovative, independent, and humanitarian. You envision the future."),
   ("Pisces", "Compassionate, imaginative, and spiritual. You feel deeply and dream big.")]

/-- The static moon-sign table of `_generate_interpretation`. -/
def moon_interpretations : List (String × String) :=
  [("Aries", "Your emotions are direct and passionate. You need independence."),
   ("Taurus", "You seek emotional security through comfort and stability."),
   ("Gemini", "You process emotions intellectually and need variety."),
   ("Cancer", "Deeply emotional and nurturing. Home is your sanctuary."),
   ("Leo", "You need recognition and warmth in your emotional life."),
   ("Virgo", "You feel secure when things are organized and useful."),
   ("Libra", "Emotional balance comes through partnership and harmony."),
   ("Scorpio", "Your emotions run deep and intense. You crave intimacy."),
   ("Sagittarius", "Emotional freedom and adventure feed your soul."),
   ("Capricorn", "You find security through achievement and structure."),
   ("Aquarius", "You need emotional space and intellectual connection."),
   ("Pisces", "Ultra-sensitive and empathic. You absorb others' feelings.")]

/-- The static rising-sign table of `_generate_interpretation`. -/
def rising_interpretations : List (String × String) :=
  [("Aries", "You come across as bold, direct, and energetic."),
   ("Taurus", "You appear calm, steady, and approachable."),
   ("Gemini", "You seem curious, talkative, and youthful."),
   ("Cancer", "You give off a caring, protective vibe."),
   ("Leo", "You have a warm, confident, magnetic presence."),
   ("Virgo", "You appear helpful, modest, and detail-oriented."),
   ("Libra", "You come across as charming, diplomatic, and refined."),
   ("Scorpio", "You have an intense, mysterious, magnetic aura."),
   ("Sagittarius", "You seem optimistic, adventurous, and frank."),
   ("Capricorn", "You appear serious, responsible, and composed."),
   ("Aquarius", "You seem unique, friendly, and unconventional."),
   ("Pisces", "You give off a gentle, dreamy, compassionate vibe.")]

/-- Python `table.get(key, default)` on the interpretation tables. -/
def dictGetD (tbl : List (String × String)) (k d : String) : String :=
  (tbl.lookup k).getD d

/-- `NatalChartGenerator._generate_interpretation`: the three templated
strings keyed `sun`, `moon`, `rising`. -/
def generate_interpretation (s : AstrologicalSubject) : Val :=
  Val.dict
    [("sun", .str ("☉ **Sun in " ++ s.sun.sign ++ "**: "
        ++ dictGetD sun_interpretations s.sun.sign "Your core identity.")),
     ("moon", .str ("☽ **Moon in " ++ s.moon.sign ++ "**: "
        ++ dictGetD moon_interpretations s.moon.sign "Your emotional nature.")),
     ("rising", .str ("↑ **Rising " ++ s.first_house.sign ++ "**: "
        ++ dictGetD rising_interpretations s.first_house.sign "How others see you."))]

/-- `NatalChartGenerator.generate_chart`: the `try` block builds the
success dictionary from the library objects; any raised exception
(library failure, or an `AttributeError` from the house extraction)
lands in the `except` branch, which returns the error dictionary. -/
def generate_chart (lib : LibResult) (name : String)
    (year month day hour minute : ℤ) (latitude longitude : ℚ)
    (timezone : String) (city : Option String) : Val :=
  match lib with
  | .raise e => errDict e
  | .ok subject _aspects =>
    match get_houses subject with
    | none => errDict "AttributeError"
    | some houses =>
      Val.dict
        [("success", .bool true),
         ("name", .str name),
         ("birth_data", Val.dict
           [("date", .str (toString year ++ "-" ++ pad2 month ++ "-" ++ pad2 day)),
            ("time", .str (pad2 hour ++ ":" ++ pad2 minute)),
            ("location", .str (locationStr city latitude longitude)),
            ("timezone", .str timezone)]),
         ("placements", get_placements subject),
         ("houses", Val.dict houses),
         ("aspects", Val.list (get_aspects _aspects)),
         ("chart_svg", .str (svgPath name)),
         ("interpretation", generate_interpretation subject)]

/-- `get_timezone_suggestions`: the fixed list of common timezones (the
`city` argument is never used). -/
def get_timezone_suggestions (city : Option String) : List String :=
  ["America/New_York",
   "America/Chicago",
   "America/Denver",
   "America/Los_Angeles",
   "America/Phoenix",
   "America/Anchorage",
   "Pacific/Honolulu",
   "Europe/London",
   "Europe/Paris",
   "Europe/Berlin",
   "Europe/Rome",
   "Europe/Madrid",
   "Europe/Lisbon",
   "Asia/Tokyo",
   "Asia/Shanghai",
   "Asia/Hong_Kong",
   "Asia/Singapore",
   "Asia/Dubai",
   "Asia/Kolkata",
   "Australia/Sydney",
   "Australia/Melbourne",
   "Pacific/Auckland"]

/-! ### `app.py`: the Gradio callback layer -/

/-- Python truthiness of a value (used for `data['retrograde']`,
`if aspects:` and `result.get("success")`). -/
def valTruthy : Val → Bool
  | .str s => s != ""
  | .num q => if q = 0 then false else true
  | .bool b => b
  | .list vs => !vs.isEmpty
  | .dict es => !es.isEmpty

/-- Truthiness of `d.get(k)` (a missing key yields Python `None`, which
is falsy). -/
def optionTruthy : Option Val → Bool
  | none => false
  | some v => valTruthy v

/-- The test `not result.get("success")` in `generate_natal_chart`,
negated: `true` iff the success flag is truthy. -/
def successTruthy (r : Val) : Bool :=
  optionTruthy (valGet r "success")

/-- `result.get(k, d)` when a string is expected (the app only reads
string fields this way). -/
def getStrD (r : Val) (k d : String) : String :=
  match valGet r k with
  | some (.str s) => s
  | _ => d

/-- `result.get("chart_svg")` as handed to the image widget: the stored
path, or Python `None`. -/
def getChartPath (r : Val) : Option String :=
  match valGet r "chart_svg" with
  | some (.str s) => some s
  | _ => none

/-- One iteration of the placement loop in `format_interpretation`;
`none` models a `KeyError` on the planet dictionary. -/
def planetLine (planet : String) (data : Val) : Option String := do
  let retro ← valGet data "retrograde"
  let retrostr := if valTruthy retro then " ℞" else ""
  let sgn ← valGet data "sign"
  let pos ← valGet data "position"
  let hs ← valGet data "house"
  pure ("**" ++ planet ++ "**: " ++ pyStr sgn ++ " at " ++ pyStr pos
    ++ "° (House " ++ pyStr hs ++ ")" ++ retrostr ++ "\n\n")

/-- One iteration of the aspect loop in `format_interpretation`;
`none` models a `KeyError` on the aspect dictionary. -/
def aspectLine (v : Val) : Option String := do
  let ps ← valGet v "planets"
  let ty ← valGet v "type"
  let orb ← valGet v "orb"
  pure ("- " ++ pyStr ps ++ ": " ++ pyStr ty ++ " (orb " ++ pyStr orb ++ "°)\n")

/-- The aspect block appended by `format_interpretation`: a heading plus
one line per aspect of `aspects[:5]`. -/
def aspectSectionText (vs : List Val) : Option String := do
  let lines ← optMapM aspectLine (vs.take 5)
  pure ("\n---\n\n## 🔗 Major Aspects\n\n" ++ String.join lines)

/-- `format_interpretation`: the markdown text built from the result
dictionary; `none` models a raised `KeyError`/`TypeError` (caught by the
caller's `except`). -/
def format_interpretation (result : Val) : Option String := do
  let interp ← valGet result "interpretation"
  let placements ← valGet result "placements"
  let namev ← valGet result "name"
  let bd ← valGet result "birth_data"
  let bdate ← valGet bd "date"
  let btime ← valGet bd "time"
  let bloc ← valGet bd "location"
  let btz ← valGet bd "timezone"
  let sunv ← valGet interp "sun"
  let moonv ← valGet interp "moon"
  let risingv ← valGet interp "rising"
  let header :=
    "\n# 🌟 Natal Chart for " ++ pyStr namev
    ++ "\n\n## Birth Information\n📅 **Date**: " ++ pyStr bdate
    ++ "  \n🕐 **Time**: " ++ pyStr btime
    ++ "  \n📍 **Location**: " ++ pyStr bloc
    ++ "  \n🌍 **Timezone**: " ++ pyStr btz
    ++ "\n\n---\n\n## ✨ Your Core Identity (Big Three)\n\n" ++ pyStr sunv
    ++ "\n\n" ++ pyStr moonv ++ "\n\n" ++ pyStr risingv
    ++ "\n\n---\n\n## 🪐 Planetary Placements\n\n"
  let entries ←
    match placements with
    | .dict es => some es
    | _ => none
  let plines ← optMapM (fun pr => planetLine pr.1 pr.2) entries
  let text := header ++ String.join plines
  let aspects := (valGet result "aspects").getD (.list [])
  if valTruthy aspects then
    match aspects with
    | .list vs => do
      let sec ← aspectSectionText vs
      pure (text ++ sec)
    | _ => none
  else
    pure text

/-- `format_detailed_data`: `json.dumps(result, indent=2)`. -/
def format_detailed_data (result : Val) : String :=
  jsonDumps result

/-- `generate_natal_chart` in `app.py`: validate the presence of name
and birth date, parse the date, call the backend once, then branch on
the success flag; the surrounding `try/except` turns any raised
exception into an error triple.  The returned triple is
(interpretation markdown, chart image path, detailed JSON text). -/
def generate_natal_chart (lib : LibResult) (name birth_date : String)
    (birth_hour birth_minute : ℤ) (city : String)
    (latitude longitude : ℚ) (timezone : String) :
    String × Option String × String :=
  if name = "" ∨ birth_date = "" then
    ("❌ Please provide your name and birth date.", none, "Missing required fields")
  else
    match parseDate birth_date with
    | .error e => ("❌ Error: " ++ e, none, e)
    | .ok (year, month, day) =>
      let result := generate_chart lib name year month day birth_hour birth_minute
        latitude longitude timezone (some city)
      if successTruthy result = false then
        ("❌ Error: " ++ getStrD result "error" "Unknown error", none,
          format_detailed_data result)
      else
        match format_interpretation result with
        | none => ("❌ Error: KeyError", none, "KeyError")
        | some interp => (interp, getChartPath result, format_detailed_data result)

/-- The `COMMON_CITIES` table of `app.py`. -/
def COMMON_CITIES : List (String × ℚ × ℚ × String) :=
  [("New York, USA", (40.7128, -74.0060, "America/New_York")),
   ("Los Angeles, USA", (34.0522, -118.2437, "America/Los_Angeles")),
   ("London, UK", (51.5074, -0.1278, "Europe/London")),
   ("Paris, France", (48.8566, 2.3522, "Europe/Paris")),
   ("Tokyo, Japan", (35.6762, 139.6503, "Asia/Tokyo")),
   ("Sydney, Australia", (-33.8688, 151.2093, "Australia/Sydney")),
   ("Berlin, Germany", (52.5200, 13.4050, "Europe/Berlin")),
   ("Rome, Italy", (41.9028, 12.4964, "Europe/Rome")),
   ("Madrid, Spain", (40.4168, -3.7038, "Europe/Madrid")),
   ("Lisbon, Portugal", (38.7223, -9.1393, "Europe/Lisbon")),
   ("Dubai, UAE", (25.2048, 55.2708, "Asia/Dubai")),
   ("Singapore", (1.3521, 103.8198, "Asia/Singapore")),
   ("Hong Kong", (22.3193, 114.1694, "Asia/Hong_Kong")),
   ("Mumbai, India", (19.0760, 72.8777, "Asia/Kolkata")),
   ("São Paulo, Brazil", (-23.5505, -46.6333, "America/Sao_Paulo"))]

/-- `fill_city_coords`: auto-fill coordinates for a known city, or the
`(0.0, 0.0, "UTC", "")` default for any other selection. -/
def fill_city_coords (city_selection : String) : ℚ × ℚ × String × String :=
  match COMMON_CITIES.lookup city_selection with
  | some (lat, lng, tz) => (lat, lng, tz, city_selection)
  | none => (0.0, 0.0, "UTC", "")

/-! ### Externally visible effects (for the persistence claim) -/

/-- The durable-storage effects the repository's code can trigger:
creating the output directory, delegating SVG rendering to the library,
or writing a file with given path and content. -/
inductive Effect where
  | mkdirOutput : Effect
  | libMakeSVG : Effect
  | fileWrite : String → String → Effect
deriving BEq

/-- Filesystem effects of `NatalChartGenerator.__init__`
(`self.output_dir.mkdir(exist_ok=True)`). -/
def init_effects : List Effect := [Effect.mkdirOutput]

/-- Filesystem effects of one `generate_chart` call: the library's
`makeSVG()` when the library interaction succeeds, nothing when it
raises; the wrapper itself opens no file. -/
def generate_chart_effects (lib : LibResult) : List Effect :=
  match lib with
  | .raise _ => []
  | .ok _ _ => [Effect.libMakeSVG]

/-! ### `test_natal_chart.py`: the manual test script -/

/-- The latitude `47.6` of the test script's call, spelled as an
explicit rational so concrete evaluations reduce. -/
def jungLat : ℚ := ⟨238, 5, by decide, by decide⟩

/-- The longitude `9.32` of the test script's call, spelled as an
explicit rational so concrete evaluations reduce. -/
def jungLng : ℚ := ⟨233, 25, by decide, by decide⟩

/-- The subject the test script constructs: the library echoes Carl
Jung's hard-coded birth data into the identity attributes, while the
astronomical attributes come from the library (`astro`). -/
def testSubject (astro : AstrologicalSubject) : AstrologicalSubject :=
  { astro with
    name := "Carl Jung", year := 1875, month := 7, day := 26,
    hour := 19, minute := 20, lat := jungLat, lng := jungLng,
    tz_str := "Europe/Zurich" }

/-- `model_dump()` of a planet, restricted to the attributes this
embedding carries. -/
def planetDump (p : Planet) : Val :=
  Val.dict [("sign", .str p.sign), ("position", .num p.position),
    ("house", .str p.house), ("retrograde", .bool p.retrograde)]

/-- `model_dump()` of a house cusp, restricted to the attributes this
embedding carries. -/
def houseDump (h : HouseCusp) : Val :=
  Val.dict [("sign", .str h.sign), ("position", .num h.position)]

/-- The `json_output` dictionary assembled by `test_natal_chart`. -/
def test_json_output (s : AstrologicalSubject) (aspects : List AspectRec) : Val :=
  Val.dict
    [("name", .str s.name),
     ("birth_data", Val.dict
       [("date", .str (toString s.year ++ "-" ++ pad2 s.month ++ "-" ++ pad2 s.day)),
        ("time", .str (pad2 s.hour ++ ":" ++ pad2 s.minute)),
        ("lat", .num s.lat), ("lon", .num s.lng), ("timezone", .str s.tz_str)]),
     ("placements", Val.dict
       [("sun", Val.dict [("sign", .str s.sun.sign), ("position", .num s.sun.position),
          ("house", .str s.sun.house)]),
        ("moon", Val.dict [("sign", .str s.moon.sign), ("position", .num s.moon.position),
          ("house", .str s.moon.house)]),
        ("rising", Val.dict [("sign", .str s.first_house.sign),
          ("position", .num s.first_house.position)])]),
     ("planets", Val.dict
       [("sun", planetDump s.sun), ("moon", planetDump s.moon),
        ("mercury", planetDump s.mercury), ("venus", planetDump s.venus),
        ("mars", planetDump s.mars), ("jupiter", planetDump s.jupiter),
        ("saturn", planetDump s.saturn), ("uranus", planetDump s.uranus),
        ("neptune", planetDump s.neptune), ("pluto", planetDump s.pluto)]),
     ("houses", Val.dict
       [("house_1", houseDump s.first_house), ("house_2", houseDump s.second_house),
        ("house_3", houseDump s.third_house), ("house_4", houseDump s.fourth_house),
        ("house_5", houseDump s.fifth_house), ("house_6", houseDump s.sixth_house)]),
     ("aspects", Val.list ((aspects.take 20).map fun a =>
       Val.dict [("planet1", .str a.p1_name), ("planet2", .str a.p2_name),
         ("aspect", .str a.aspect), ("orb", .num a.orbit)]))]

/-- Durable-storage effects of one run of `test_natal_chart`: the
library's SVG rendering, then the JSON dump of the assembled
`json_output` into `natal_chart_data.json`. -/
def test_effects (s : AstrologicalSubject) (aspects : List AspectRec) : List Effect :=
  [Effect.libMakeSVG,
   Effect.fileWrite "natal_chart_data.json" (jsonDumps (test_json_output s aspects))]

/-- Does `sub` occur as a contiguous run inside the character list? -/
def containsSubAux (sub : List Char) : List Char → Bool
  | [] => sub.isEmpty
  | c :: rest => sub.isPrefixOf (c :: rest) || containsSubAux sub rest

/-- Substring test on strings (via character lists). -/
def containsSub (s sub : String) : Bool :=
  containsSubAux sub.toList s.toList

/-- A blank planet (placeholder astronomical data for concrete
evaluations). -/
def blankPlanet : Planet := ⟨"", 0, "", false⟩

/-- A blank house cusp (placeholder astronomical data for concrete
evaluations). -/
def blankHouse : HouseCusp := ⟨"", 0⟩

/-- A subject whose every attribute is blank (placeholder for concrete
evaluations). -/
def blankSubject : AstrologicalSubject :=
  ⟨"", 0, 0, 0, 0, 0, 0, 0, "",
   blankPlanet, blankPlanet, blankPlanet, blankPlanet, blankPlanet,
   blankPlanet, blankPlanet, blankPlanet, blankPlanet, blankPlanet,
   blankHouse, blankHouse, blankHouse, blankHouse, blankHouse, blankHouse,
   blankHouse, blankHouse, blankHouse, blankHouse, blankHouse, blankHouse⟩

/-- The twelve zodiac signs, in the order the interpretation tables list
them. -/
def twelveSigns : List String :=
  ["Aries", "Taurus", "Gemini", "Cancer", "Leo", "Virgo",
   "Libra", "Scorpio", "Sagittarius", "Capricorn", "Aquarius", "Pisces"]

/-! ### Helper lemmas -/

/-- `jungLat` is the decimal literal `47.6` of the test script. -/
theorem jungLat_eq : jungLat = 47.6 := by
  rw [jungLat, Rat.mk'_eq_divInt, Rat.divInt_eq_div]; norm_num

/-- `jungLng` is the decimal literal `9.32` of the test script. -/
theorem jungLng_eq : jungLng = 9.32 := by
  rw [jungLng, Rat.mk'_eq_divInt, Rat.divInt_eq_div]; norm_num

/-- A lookup misses exactly when the key is not among the stored keys. -/
theorem lookup_none_of_key_not_mem (tbl : List (String × String)) (k : String)
    (h : k ∉ tbl.map Prod.fst) : tbl.lookup k = none := by
  induction tbl with
  | nil => rfl
  | cons p t ih =>
    simp only [List.map_cons, List.mem_cons] at h
    push_neg at h
    obtain ⟨h1, h2⟩ := h
    have hb : (k == p.1) = false := beq_eq_false_iff_ne.mpr h1
    simp [List.lookup, hb, ih h2]

/-- Rendering an aspect dictionary produced by `_get_aspects` never
raises. -/
theorem aspectLine_aspectVal (r : AspectRec) :
    aspectLine (aspectVal r) =
      some ("- " ++ (r.p1_name ++ " - " ++ r.p2_name) ++ ": " ++ r.aspect
        ++ " (orb " ++ decimalRepr (round2 r.orbit) ++ "°)\n") := rfl

/-- The aspect loop of `format_interpretation` succeeds on every list of
`_get_aspects` dictionaries. -/
theorem optMapM_aspectLine (l : List AspectRec) :
    optMapM aspectLine (l.map aspectVal) =
      some (l.map fun r => "- " ++ (r.p1_name ++ " - " ++ r.p2_name) ++ ": " ++ r.aspect
        ++ " (orb " ++ decimalRepr (round2 r.orbit) ++ "°)\n") := by
  induction l with
  | nil => rfl
  | cons r t ih => simp [List.map_cons, optMapM, aspectLine_aspectVal, ih]

/-- The aspect section of `format_interpretation` succeeds on the sliced
output of `_get_aspects`. -/
theorem aspectSectionText_mapped (l : List AspectRec) :
    (aspectSectionText ((l.map aspectVal).take 10)).isSome = true := by
  unfold aspectSectionText
  rw [List.take_take, show min 5 10 = 5 from rfl, ← List.map_take,
    optMapM_aspectLine (l.take 5)]
  rfl

/-- `format_interpretation` never raises on a success dictionary
produced by `generate_chart`. -/
theorem format_interpretation_success (s : AstrologicalSubject) (na : NatalAspects)
    (nm : String) (y mo d h mi : ℤ) (la ln : ℚ) (tz : String) (city : Option String) :
    (format_interpretation (generate_chart (.ok s na) nm y mo d h mi la ln tz city)).isSome
      = true := by
  obtain ⟨alla⟩ := na
  cases alla with
  | none => rfl
  | some l =>
    cases l with
    | nil => rfl
    | cons r t =>
      have h := aspectSectionText_mapped (r :: t)
      obtain ⟨sec, hsec⟩ := Option.isSome_iff_exists.mp h
      change (Option.bind (aspectSectionText (((r :: t).map aspectVal).take 10)) _).isSome
        = true
      rw [hsec]
      rfl

/-! ### Claim theorems -/

/-- C9: `get_timezone_suggestions` is constant: every pair of city
arguments (including `none`) yields the identical fixed list, and that
list has 22 timezone strings. -/
theorem timezone_suggestions_constant :
    (∀ c c' : Option String, get_timezone_suggestions c = get_timezone_suggestions c') ∧
    ∀ c : Option String, (get_timezone_suggestions c).length = 22 :=
  ⟨fun _ _ => rfl, fun _ => rfl⟩

/-- C10: `fill_city_coords` returns the stored latitude, longitude and
timezone together with the selection itself when the selection is a key
of `COMMON_CITIES` (a table of 15 entries), and `(0.0, 0.0, "UTC", "")`
for every other input, in particular for `"Custom Location"`. -/
theorem fill_city_coords_spec :
    (∀ sel lat lng tz, COMMON_CITIES.lookup sel = some (lat, lng, tz) →
      fill_city_coords sel = (lat, lng, tz, sel)) ∧
    (∀ sel, COMMON_CITIES.lookup sel = none →
      fill_city_coords sel = (0.0, 0.0, "UTC", "")) ∧
    COMMON_CITIES.lookup "Custom Location" = none ∧
    COMMON_CITIES.length = 15 := by
  refine ⟨?_, ?_, rfl, rfl⟩
  · intro sel lat lng tz h
    simp [fill_city_coords, h]
  · intro sel h
    simp [fill_city_coords, h]

/-- C10 witness: a known city fills its stored coordinates, and the
`"Custom Location"` entry of the dropdown falls back to the default. -/
theorem fill_city_coords_spec_witness :
    fill_city_coords "Tokyo, Japan" = (35.6762, 139.6503, "Asia/Tokyo", "Tokyo, Japan") ∧
    fill_city_coords "Custom Location" = (0.0, 0.0, "UTC", "") :=
  ⟨fill_city_coords_spec.1 "Tokyo, Japan" 35.6762 139.6503 "Asia/Tokyo" rfl,
   fill_city_coords_spec.2.1 "Custom Location" rfl⟩

/-- C7: `_get_houses` returns exactly twelve entries keyed
`"House 1"`..`"House 12"`, each holding the sign of the corresponding
house cusp, and the ordinal attribute names constructed for `i` in
`1..12` are `first`..`twelfth` in the correct order. -/
theorem get_houses_ordinals (s : AstrologicalSubject) :
    get_houses s = some
      [("House 1", Val.str s.first_house.sign), ("House 2", Val.str s.second_house.sign),
       ("House 3", Val.str s.third_house.sign), ("House 4", Val.str s.fourth_house.sign),
       ("House 5", Val.str s.fifth_house.sign), ("House 6", Val.str s.sixth_house.sign),
       ("House 7", Val.str s.seventh_house.sign), ("House 8", Val.str s.eighth_house.sign),
       ("House 9", Val.str s.ninth_house.sign), ("House 10", Val.str s.tenth_house.sign),
       ("House 11", Val.str s.eleventh_house.sign),
       ("House 12", Val.str s.twelfth_house.sign)] ∧
    (List.range' 1 12).map ordinalWord =
      ["first", "second", "third", "fourth", "fifth", "sixth", "seventh",
       "eighth", "ninth", "tenth", "eleventh", "twelfth"] :=
  ⟨rfl, rfl⟩

/-- C5: `_generate_interpretation` returns a dictionary with exactly the
keys `sun`, `moon`, `rising`, each filled by the fixed template over the
subject's sun sign, moon sign and first-house sign with the canned
string looked up in a twelve-entry table; a sign outside the twelve
table keys gets the fixed default string. -/
theorem interpretation_tables :
    (∀ s : AstrologicalSubject, generate_interpretation s = Val.dict
      [("sun", .str ("☉ **Sun in " ++ s.sun.sign ++ "**: "
          ++ dictGetD sun_interpretations s.sun.sign "Your core identity.")),
       ("moon", .str ("☽ **Moon in " ++ s.moon.sign ++ "**: "
          ++ dictGetD moon_interpretations s.moon.sign "Your emotional nature.")),
       ("rising", .str ("↑ **Rising " ++ s.first_house.sign ++ "**: "
          ++ dictGetD rising_interpretations s.first_house.sign "How others see you."))]) ∧
    sun_interpretations.map Prod.fst = twelveSigns ∧
    moon_interpretations.map Prod.fst = twelveSigns ∧
    rising_interpretations.map Prod.fst = twelveSigns ∧
    twelveSigns.length = 12 ∧
    ∀ sgn, sgn ∉ twelveSigns →
      dictGetD sun_interpretations sgn "Your core identity." = "Your core identity." ∧
      dictGetD moon_interpretations sgn "Your emotional nature."
        = "Your emotional nature." ∧
      dictGetD rising_interpretations sgn "How others see you."
        = "How others see you." := by
  refine ⟨fun s => rfl, rfl, rfl, rfl, rfl, fun sgn h => ?_⟩
  refine ⟨?_, ?_, ?_⟩ <;>
    · rw [dictGetD, lookup_none_of_key_not_mem]
      · rfl
      · exact h

/-- C5 witness: a label outside the twelve signs falls back to the three
fixed default strings. -/
theorem interpretation_tables_witness :
    dictGetD sun_interpretations "Ophiuchus" "Your core identity." = "Your core identity." ∧
    dictGetD moon_interpretations "Ophiuchus" "Your emotional nature."
      = "Your emotional nature." ∧
    dictGetD rising_interpretations "Ophiuchus" "How others see you."
      = "How others see you." :=
  interpretation_tables.2.2.2.2.2 "Ophiuchus" (by decide)


/-- C2: when the name or the birth date is empty, `generate_natal_chart`
returns the fixed missing-fields triple, and its output does not depend
on the library at all (the validation happens before the backend call). -/
theorem missing_fields_short_circuit (lib : LibResult) (name birth_date : String)
    (birth_hour birth_minute : ℤ) (city : String) (latitude longitude : ℚ)
    (timezone : String) (h : name = "" ∨ birth_date = "") :
    generate_natal_chart lib name birth_date birth_hour birth_minute city
        latitude longitude timezone =
      ("❌ Please provide your name and birth date.", none, "Missing required fields") ∧
    ∀ lib' : LibResult,
      generate_natal_chart lib name birth_date birth_hour birth_minute city
          latitude longitude timezone =
        generate_natal_chart lib' name birth_date birth_hour birth_minute city
          latitude longitude timezone := by
  have key : ∀ l : LibResult,
      generate_natal_chart l name birth_date birth_hour birth_minute city
          latitude longitude timezone =
        ("❌ Please provide your name and birth date.", none, "Missing required fields") := by
    intro l
    unfold generate_natal_chart
    rw [if_pos h]
  exact ⟨key lib, fun lib' => (key lib).trans (key lib').symm⟩

/-- C2 witness: an empty name short-circuits to the fixed triple even
when the library would raise. -/
theorem missing_fields_short_circuit_witness :
    generate_natal_chart (.raise "boom") "" "1990-03-15" 12 0 "NYC" 0 0 "UTC" =
      ("❌ Please provide your name and birth date.", none, "Missing required fields") :=
  (missing_fields_short_circuit (.raise "boom") "" "1990-03-15" 12 0 "NYC" 0 0 "UTC"
    (Or.inl rfl)).1

/-- C1: when the wrapped library call raises, no exception escapes
`generate_chart`: it returns the dictionary with `success = False`,
`error = str(e)` and the fixed message; and further down the call path
the UI callback turns exactly that dictionary into its error triple (the
app-level `except` never fires for a library error). -/
theorem generate_chart_error_recovery (e name : String)
    (year month day hour minute : ℤ) (latitude longitude : ℚ) (timezone : String)
    (city : Option String) (birth_date : String) (birth_hour birth_minute : ℤ)
    (cityStr : String)
    (hfields : ¬(name = "" ∨ birth_date = ""))
    (hdate : parseDate birth_date = .ok (year, month, day)) :
    generate_chart (.raise e) name year month day hour minute latitude longitude
        timezone city =
      Val.dict [("success", .bool false), ("error", .str e),
        ("message", .str "Failed to generate natal chart. Please check your input data.")] ∧
    generate_natal_chart (.raise e) name birth_date birth_hour birth_minute cityStr
        latitude longitude timezone =
      ("❌ Error: " ++ e, none, jsonDumps (errDict e)) := by
  constructor
  · rfl
  · unfold generate_natal_chart
    rw [if_neg hfields, hdate]
    rfl

/-- C1 witness: a concrete raising library call yields the error
dictionary and the error triple. -/
theorem generate_chart_error_recovery_witness :
    generate_chart (.raise "boom") "Jane" 1990 3 15 12 0 0 0 "UTC" (some "NYC") =
      Val.dict [("success", .bool false), ("error", .str "boom"),
        ("message", .str "Failed to generate natal chart. Please check your input data.")] ∧
    generate_natal_chart (.raise "boom") "Jane" "1990-03-15" 12 0 "NYC" 0 0 "UTC" =
      ("❌ Error: boom", none, jsonDumps (errDict "boom")) :=
  generate_chart_error_recovery "boom" "Jane" 1990 3 15 12 0 0 0 "UTC" (some "NYC")
    "1990-03-15" 12 0 "NYC" (by decide) rfl

/-- C8: `_get_aspects` returns at most 10 entries, each a dictionary
with exactly the keys `planets`, `type`, `orb` (orb rounded to two
decimals); a missing `all_aspects` attribute yields the empty list; and
the aspect section of `format_interpretation` depends only on the first
5 aspects it is given. -/
theorem aspects_shape_and_display :
    (∀ a : NatalAspects, (get_aspects a).length ≤ 10) ∧
    get_aspects ⟨none⟩ = [] ∧
    (∀ (a : NatalAspects) (l : List AspectRec), a.all_aspects = some l →
      get_aspects a = (l.map aspectVal).take 10) ∧
    (∀ r : AspectRec, aspectVal r = Val.dict
      [("planets", .str (r.p1_name ++ " - " ++ r.p2_name)),
       ("type", .str r.aspect), ("orb", .num (round2 r.orbit))]) ∧
    ∀ vs : List Val, aspectSectionText vs = aspectSectionText (vs.take 5) := by
  refine ⟨?_, rfl, ?_, fun r => rfl, ?_⟩
  · intro a
    obtain ⟨alla⟩ := a
    cases alla with
    | none => simp [get_aspects]
    | some l =>
      simp only [get_aspects]
      exact List.length_take_le 10 (l.map aspectVal)
  · intro a l h
    obtain ⟨alla⟩ := a
    cases h
    rfl
  · intro vs
    unfold aspectSectionText
    rw [List.take_take, show min 5 5 = 5 from rfl]

/-- C8 witness: a one-aspect object maps to the sliced singleton list of
aspect dictionaries. -/
theorem aspects_shape_and_display_witness :
    get_aspects ⟨some [⟨"Sun", "Moon", "trine", 1.234⟩]⟩ =
      ([(⟨"Sun", "Moon", "trine", 1.234⟩ : AspectRec)].map aspectVal).take 10 :=
  aspects_shape_and_display.2.2.1 ⟨some [⟨"Sun", "Moon", "trine", 1.234⟩]⟩
    [⟨"Sun", "Moon", "trine", 1.234⟩] rfl

/-- C6 (amended): one `generate_chart` call performs no direct file
write of its own - its externally visible effects are at most the
library's SVG rendering (plus the output-directory creation at
construction time) - but the test script does write the assembled birth
data to `natal_chart_data.json`. -/
theorem wrapper_no_direct_file_writes :
    (∀ lib : LibResult, generate_chart_effects lib = [] ∨
      generate_chart_effects lib = [Effect.libMakeSVG]) ∧
    init_effects = [Effect.mkdirOutput] ∧
    ∀ (s : AstrologicalSubject) (aspects : List AspectRec),
      test_effects s aspects =
        [Effect.libMakeSVG,
         Effect.fileWrite "natal_chart_data.json" (jsonDumps (test_json_output s aspects))] := by
  refine ⟨fun lib => ?_, rfl, fun s a => rfl⟩
  cases lib with
  | ok s a => exact Or.inr rfl
  | raise e => exact Or.inl rfl

/-- C6 counterexample: the test script's run writes the user-supplied
birth data (name, birth date, birth time, location timezone) to the
durable file `natal_chart_data.json`, so the no-persistence claim fails
on the test script. -/
theorem test_script_persists_birth_data :
    (test_effects (testSubject blankSubject) []).any (fun eff =>
      match eff with
      | Effect.fileWrite p c =>
        p == "natal_chart_data.json" && containsSub c "Carl Jung"
          && containsSub c "1875-07-26" && containsSub c "19:20"
          && containsSub c "Europe/Zurich"
      | _ => false) = true := by
  decide

/-- C3: on a successful library call, `generate_chart` returns a
dictionary with exactly the eight keys in source order, `success =
True`, a `birth_data` dictionary holding the `year-month-day` date with
zero-padded month and day, the zero-padded `hour:minute` time, the
location (the city, or `"latitude, longitude"` when the city is absent
or empty) and the given timezone, and a `placements` dictionary mapping
exactly the ten planets Sun through Pluto to their sign / rounded
position / house / retrograde dictionaries. -/
theorem generate_chart_success_shape (subject : AstrologicalSubject)
    (aspects : NatalAspects) (name : String) (year month day hour minute : ℤ)
    (latitude longitude : ℚ) (timezone : String) (city : Option String) :
    let r := generate_chart (.ok subject aspects) name year month day hour minute
      latitude longitude timezone city
    valKeys r = ["success", "name", "birth_data", "placements", "houses", "aspects",
      "chart_svg", "interpretation"] ∧
    valGet r "success" = some (.bool true) ∧
    valGet r "name" = some (.str name) ∧
    valGet r "birth_data" = some (Val.dict
      [("date", .str (toString year ++ "-" ++ pad2 month ++ "-" ++ pad2 day)),
       ("time", .str (pad2 hour ++ ":" ++ pad2 minute)),
       ("location", .str (locationStr city latitude longitude)),
       ("timezone", .str timezone)]) ∧
    valGet r "placements" = some (Val.dict
      [("Sun", placementVal subject.sun), ("Moon", placementVal subject.moon),
       ("Mercury", placementVal subject.mercury), ("Venus", placementVal subject.venus),
       ("Mars", placementVal subject.mars), ("Jupiter", placementVal subject.jupiter),
       ("Saturn", placementVal subject.saturn), ("Uranus", placementVal subject.uranus),
       ("Neptune", placementVal subject.neptune), ("Pluto", placementVal subject.pluto)]) ∧
    ∀ p : Planet, placementVal p = Val.dict
      [("sign", .str p.sign), ("position", .num (round2 p.position)),
       ("house", .str p.house), ("retrograde", .bool p.retrograde)] :=
  ⟨rfl, rfl, rfl, rfl, rfl, fun p => rfl⟩

/-- C4: on every path - validation failure, date-parse exception,
backend failure, and success - `generate_natal_chart` returns exactly a
triple of display values; on the success path these are the markdown
interpretation text, the SVG chart path and the JSON dump of the chart
data, and on that path the formatter never raises. -/
theorem generate_natal_chart_three_outputs (lib : LibResult)
    (name birth_date : String) (birth_hour birth_minute : ℤ) (city : String)
    (latitude longitude : ℚ) (timezone : String) :
    let out := generate_natal_chart lib name birth_date birth_hour birth_minute city
      latitude longitude timezone
    (name = "" ∨ birth_date = "" →
      out = ("❌ Please provide your name and birth date.", none,
        "Missing required fields")) ∧
    (∀ e, ¬(name = "" ∨ birth_date = "") → parseDate birth_date = .error e →
      out = ("❌ Error: " ++ e, none, e)) ∧
    ∀ year month day, ¬(name = "" ∨ birth_date = "") →
      parseDate birth_date = .ok (year, month, day) →
      let result := generate_chart lib name year month day birth_hour birth_minute
        latitude longitude timezone (some city)
      (successTruthy result = false →
        out = ("❌ Error: " ++ getStrD result "error" "Unknown error", none,
          format_detailed_data result)) ∧
      (successTruthy result = true →
        (format_interpretation result).isSome = true ∧
        ∀ interp, format_interpretation result = some interp →
          out = (interp, getChartPath result, format_detailed_data result)) := by
  intro out
  refine ⟨?_, ?_, ?_⟩
  · intro h
    show generate_natal_chart lib name birth_date birth_hour birth_minute city
      latitude longitude timezone = _
    unfold generate_natal_chart
    rw [if_pos h]
  · intro e hne hpe
    show generate_natal_chart lib name birth_date birth_hour birth_minute city
      latitude longitude timezone = _
    unfold generate_natal_chart
    rw [if_neg hne, hpe]
  · intro year month day hne hpd
    intro result
    have hout : out = (if successTruthy result = false then
        ("❌ Error: " ++ getStrD result "error" "Unknown error", none,
          format_detailed_data result)
      else
        match format_interpretation result with
        | none => ("❌ Error: KeyError", none, "KeyError")
        | some interp => (interp, getChartPath result, format_detailed_data result)) := by
      show generate_natal_chart lib name birth_date birth_hour birth_minute city
        latitude longitude timezone = _
      unfold generate_natal_chart
      rw [if_neg hne, hpd]
    constructor
    · intro hfail
      rw [hout, if_pos hfail]
    · intro hsucc
      have hsome : (format_interpretation result).isSome = true := by
        cases lib with
        | raise e => exact absurd hsucc (by exact fun hh => Bool.noConfusion hh)
        | ok s na =>
          exact format_interpretation_success s na name year month day birth_hour
            birth_minute latitude longitude timezone (some city)
      refine ⟨hsome, ?_⟩
      intro interp hinterp
      rw [hout, if_neg (by simp [hsucc]), hinterp]

/-- C4 witness: the three failure paths each produce their concrete
triple (empty name; unparsable date; raising library call). -/
theorem generate_natal_chart_three_outputs_witness :
    generate_natal_chart (.raise "boom") "" "1990-03-15" 12 0 "NYC" 0 0 "UTC" =
      ("❌ Please provide your name and birth date.", none, "Missing required fields") ∧
    generate_natal_chart (.raise "boom") "Jane" "not-a-date" 12 0 "NYC" 0 0 "UTC" =
      ("❌ Error: invalid literal for int() with base 10", none,
        "invalid literal for int() with base 10") ∧
    generate_natal_chart (.raise "boom") "Jane" "1990-03-15" 12 0 "NYC" 0 0 "UTC" =
      ("❌ Error: " ++ getStrD (generate_chart (.raise "boom") "Jane" 1990 3 15 12 0 0 0
          "UTC" (some "NYC")) "error" "Unknown error", none,
        format_detailed_data (generate_chart (.raise "boom") "Jane" 1990 3 15 12 0 0 0
          "UTC" (some "NYC"))) :=
  ⟨(generate_natal_chart_three_outputs (.raise "boom") "" "1990-03-15" 12 0 "NYC"
      0 0 "UTC").1 (Or.inl rfl),
   (generate_natal_chart_three_outputs (.raise "boom") "Jane" "not-a-date" 12 0 "NYC"
      0 0 "UTC").2.1 "invalid literal for int() with base 10" (by decide) rfl,
   ((generate_natal_chart_three_outputs (.raise "boom") "Jane" "1990-03-15" 12 0 "NYC"
      0 0 "UTC").2.2 1990 3 15 (by decide) rfl).1 rfl⟩
